import Mathlib

/-!
Verification of the MedicalClaimPro claim-decision pipeline.

Shallow embedding of the Python sources:
  * `models/schemas.py`            — data model (enums, result records)
  * `agents/base_agent.py`         — extraction confidence formula
  * `services/document_classifier.py` — classification and filename fallback
  * `services/validator.py`        — validation checks
  * `services/claim_processor.py`  — decision synthesis

Python floats are modelled as rationals (all constants in the source are
exactly representable and only +, /, min and comparisons occur, so the
arithmetic agrees wherever a claim depends on it).  Python dicts are
modelled as association lists in insertion order: writing to an existing
key updates the value in place and keeps the key position, matching
CPython dict semantics.
-/

/-- String containment helper: does the needle occur as a contiguous
substring of the haystack, character-wise (models Python's `in`). -/
def charsStartWith : List Char → List Char → Bool
  | [], _ => true
  | _ :: _, [] => false
  | a :: as, b :: bs => a == b && charsStartWith as bs

/-- Scan for an occurrence of the needle anywhere in the list. -/
def charsContain (needle : List Char) : List Char → Bool
  | [] => charsStartWith needle []
  | b :: bs => charsStartWith needle (b :: bs) || charsContain needle bs

/-- `strContainsSub hay needle` models Python's `needle in hay`. -/
def strContainsSub (hay needle : String) : Bool :=
  charsContain needle.data hay.data

/-- Python `str.lower()` (same character map as `String.toLower`, stated
by structural recursion over the character list so proofs can evaluate it). -/
def pyLower (s : String) : String :=
  ⟨s.data.map Char.toLower⟩

/-- Python `str.strip()`: remove leading and trailing whitespace. -/
def pyStrip (s : String) : String :=
  ⟨((s.data.dropWhile Char.isWhitespace).reverse.dropWhile Char.isWhitespace).reverse⟩

/-- Python `str.startswith(p)`. -/
def pyStartsWith (s p : String) : Bool :=
  charsStartWith p.data s.data

/-- Python slice `s[n:]` (by characters). -/
def pyDrop (s : String) (n : ℕ) : String :=
  ⟨s.data.drop n⟩

/-- Worker for `pySplitWs`: split on whitespace runs, discarding empty
words; `cur` holds the current word reversed. -/
def splitWsAux (cur : List Char) : List Char → List String
  | [] => if cur = [] then [] else [⟨cur.reverse⟩]
  | c :: cs =>
    if c.isWhitespace then
      if cur = [] then splitWsAux [] cs else ⟨cur.reverse⟩ :: splitWsAux [] cs
    else splitWsAux (c :: cur) cs

/-- Python `str.split()` with no separator: whitespace-delimited words. -/
def pySplitWs (s : String) : List String :=
  splitWsAux [] s.data

/-- `DocumentType` enumeration from `models/schemas.py`. -/
inductive DocumentType
  | bill
  | discharge_summary
  | id_card
  | prescription
  | insurance_card
  | unknown
  deriving DecidableEq, Repr

/-- The `.value` string of each `DocumentType` member. -/
def DocumentType.value : DocumentType → String
  | .bill => "bill"
  | .discharge_summary => "discharge_summary"
  | .id_card => "id_card"
  | .prescription => "prescription"
  | .insurance_card => "insurance_card"
  | .unknown => "unknown"

/-- `DocumentType(s)` construction: succeeds exactly on the six member
strings, otherwise the Python constructor raises `ValueError` (here:
`none`). -/
def documentTypeFromString (s : String) : Option DocumentType :=
  if s = "bill" then some .bill
  else if s = "discharge_summary" then some .discharge_summary
  else if s = "id_card" then some .id_card
  else if s = "prescription" then some .prescription
  else if s = "insurance_card" then some .insurance_card
  else if s = "unknown" then some .unknown
  else none

/-- `ClaimStatus` enumeration from `models/schemas.py`. -/
inductive ClaimStatus
  | approved
  | rejected
  | pending
  | requires_review
  deriving DecidableEq, Repr

/-- Values appearing in an agent's `extracted_data` dict.  After the
agents' `_validate_extracted_data` cleaning (`bill_agent.py` etc.), text
fields are `str` or `None`, amounts are `float` or `None`, and list
fields are lists of non-empty strings; `PyValue` covers those shapes. -/
inductive PyValue
  | none
  | str (s : String)
  | num (q : ℚ)
  | listv (xs : List String)
  deriving DecidableEq, Repr

/-- Python truthiness for the modelled values. -/
def pyTruthy : PyValue → Bool
  | .none => false
  | .str s => decide (s ≠ "")
  | .num q => decide (q ≠ 0)
  | .listv xs => decide (xs ≠ [])

/-- First-match lookup in an association list (Python `dict` read). -/
def lookupAssoc (data : List (String × PyValue)) (k : String) : Option PyValue :=
  match data with
  | [] => Option.none
  | (k0, v0) :: rest => if k0 = k then some v0 else lookupAssoc rest k

/-- `AgentResponse` from `models/schemas.py` (the per-document extraction
result attached to a processed document). -/
structure AgentResponse where
  agent_name : String
  document_type : DocumentType
  extracted_data : List (String × PyValue)
  confidence : ℚ
  processing_time : ℚ
  errors : List String
  deriving DecidableEq, Repr

/-- A processed document as assembled by
`ClaimProcessor._process_with_agents`: the classified document together
with its optional extraction result (`agent_response` is `None` when no
agent ran or the agent task failed). -/
structure ProcessedDoc where
  filename : String
  document_type : DocumentType
  classification_confidence : ℚ
  agent_response : Option AgentResponse
  deriving DecidableEq, Repr

/-- `ValidationResult` from `models/schemas.py`. -/
structure ValidationResult where
  missing_documents : List String
  discrepancies : List String
  warnings : List String
  is_valid : Bool
  deriving DecidableEq, Repr

/-- `ClaimDecision` from `models/schemas.py` (`additional_info` is never
set by the decision engine and is omitted). -/
structure ClaimDecision where
  status : ClaimStatus
  reason : String
  confidence : ℚ
  deriving DecidableEq, Repr

/-! ## BaseAgent._calculate_confidence (`agents/base_agent.py`, lines 97-115) -/

/-- Count of values that are neither `None` nor the empty string
(`sum(1 for v in data.values() if v is not None and v != "")`). -/
def nonNullCount (data : List (String × PyValue)) : ℕ :=
  (data.filter (fun kv =>
    decide (kv.2 ≠ PyValue.none ∧ kv.2 ≠ PyValue.str ""))).length

/-- `any(isinstance(v, list) and len(v) > 0 for v in data.values())`. -/
def anyNonemptyList (data : List (String × PyValue)) : Bool :=
  data.any (fun kv =>
    match kv.2 with
    | .listv xs => decide (xs ≠ [])
    | _ => false)

/-- `BaseAgent._calculate_confidence`: completeness-based extraction
confidence. -/
def calculate_confidence (data : List (String × PyValue)) : ℚ :=
  if data = [] then 0
  else
    let non_null_count := nonNullCount data
    let total_fields := data.length
    if total_fields = 0 then 0
    else
      let base_confidence : ℚ := (non_null_count : ℚ) / (total_fields : ℚ)
      let base_confidence :=
        if anyNonemptyList data then base_confidence + 0.1 else base_confidence
      min base_confidence 1

/-! ## Decision engine (`services/claim_processor.py`, `_make_claim_decision`, lines 218-290) -/

/-- `any('insurance' in disc.lower() for disc in validation_result.discrepancies)`. -/
def insuranceRelated (discrepancies : List String) : Bool :=
  discrepancies.any (fun disc => strContainsSub (pyLower disc) "insurance")

/-- The accumulation loop of lines 255-261: running
`(total_confidence, valid_docs)` over the processed documents, adding the
extraction confidence of every document that has an `agent_response` with
confidence strictly above `0.3`. -/
def decisionStats (processed_docs : List ProcessedDoc) : ℚ × ℕ :=
  processed_docs.foldl (fun acc doc =>
    match doc.agent_response with
    | some r => if 0.3 < r.confidence then (acc.1 + r.confidence, acc.2 + 1) else acc
    | Option.none => acc) (0, 0)

/-- `avg_confidence = total_confidence / valid_docs if valid_docs > 0 else 0`. -/
def avg_confidence (processed_docs : List ProcessedDoc) : ℚ :=
  let s := decisionStats processed_docs
  if 0 < s.2 then s.1 / (s.2 : ℚ) else 0

/-- `ClaimProcessor._make_claim_decision`, body of the `try` block
(lines 222-282).  Within this typed embedding no statement of the body can
raise, so the `except` boundary is modelled separately by
`make_claim_decision_boundary`. -/
def make_claim_decision (processed_docs : List ProcessedDoc)
    (validation_result : ValidationResult) : ClaimDecision :=
  let doc_types := processed_docs.map (fun doc => doc.document_type)
  if DocumentType.bill ∉ doc_types then
    { status := .rejected
      reason := "Missing required medical bill document"
      confidence := 0.9 }
  else if validation_result.discrepancies ≠ [] then
    if insuranceRelated validation_result.discrepancies then
      { status := .rejected
        reason := "Insurance claim validation failed: " ++
          String.intercalate ", " validation_result.discrepancies
        confidence := 0.3 }
    else
      { status := .approved
        reason := "Approved with warnings: " ++
          String.intercalate ", " validation_result.discrepancies
        confidence := 0.7 }
  else
    let avg := avg_confidence processed_docs
    if avg < 0.7 then
      { status := .requires_review
        reason := "Low confidence in extracted data. Manual review required."
        confidence := avg }
    else
      let reason :=
        if validation_result.warnings ≠ [] then
          "Approved with minor warnings: " ++
            String.intercalate ", " validation_result.warnings
        else "All required documents present and data is consistent"
      { status := .approved, reason := reason, confidence := avg }

/-- The `except Exception` boundary of `_make_claim_decision`
(lines 284-290): an exception `e` raised by the body is converted into a
rejected decision; a normal result is returned unchanged.  The function is
total, so decision synthesis never propagates an exception. -/
def make_claim_decision_boundary (inner : Except String ClaimDecision) : ClaimDecision :=
  match inner with
  | .ok d => d
  | .error e =>
    { status := .rejected
      reason := "Decision processing error: " ++ e
      confidence := 0 }

/-! ## Document classifier (`services/document_classifier.py`) -/

/-- Outcome of the oracle interaction seen by `classify_document`:
  * `failure`    — `_make_gemini_request` (or anything in the `try` block)
    raised, caught at lines 91-93;
  * `unparsed`   — `safe_json_parse` returned `None` or a falsy (empty)
    dict (`if not parsed_data`, line 73);
  * `parsed dt c` — a truthy parsed dict; `dt` is its `document_type`
    entry and `c` its `confidence` entry, each `none` when the key is
    absent (then `dict.get` supplies the default). -/
inductive ClassifierOracle
  | failure
  | unparsed
  | parsed (document_type : Option String) (confidence : Option ℚ)
  deriving DecidableEq, Repr

/-- `DocumentClassifier._classify_by_filename` (lines 95-110): keyword
scan over the lowercased filename, first matching category wins. -/
def classify_by_filename (filename : String) : DocumentType × ℚ :=
  let filename_lower := pyLower filename
  if ["bill", "invoice", "payment", "charge"].any
      (fun w => strContainsSub filename_lower w) then
    (.bill, 0.6)
  else if ["discharge", "summary", "report"].any
      (fun w => strContainsSub filename_lower w) then
    (.discharge_summary, 0.6)
  else if ["id", "card", "identity"].any
      (fun w => strContainsSub filename_lower w) then
    (.id_card, 0.6)
  else if ["prescription", "medication", "rx"].any
      (fun w => strContainsSub filename_lower w) then
    (.prescription, 0.6)
  else if ["insurance", "policy"].any
      (fun w => strContainsSub filename_lower w) then
    (.insurance_card, 0.6)
  else
    (.unknown, 0.3)

/-- `DocumentClassifier.classify_document` (lines 36-93) as a function of
the oracle outcome and the filename. -/
def classify_document (oracle : ClassifierOracle) (filename : String) :
    DocumentType × ℚ :=
  match oracle with
  | .failure => classify_by_filename filename
  | .unparsed => classify_by_filename filename
  | .parsed dt conf =>
    let doc_type_str := dt.getD "unknown"
    let confidence := conf.getD 0.5
    match documentTypeFromString doc_type_str with
    | some document_type => (document_type, confidence)
    | Option.none => (DocumentType.unknown, 0.3)

/-- The oracle's self-reported confidence entry, when one was parsed. -/
def oracleReportedConf (o : ClassifierOracle) : Option ℚ :=
  match o with
  | .parsed _ c => c
  | _ => Option.none

/-- Whether the oracle outcome is a parsed response whose label (after
the `dict.get` default) is the in-vocabulary string of
`DocumentType.unknown`. -/
def parsedLabelIsUnknown (o : ClassifierOracle) : Bool :=
  match o with
  | .parsed dt _ =>
    decide (documentTypeFromString (dt.getD "unknown") = some DocumentType.unknown)
  | _ => false

/-- The documents that participate in `avg_confidence`: those with an
`agent_response` whose extraction confidence is strictly above 0.3. -/
def qualifying (processed_docs : List ProcessedDoc) : List AgentResponse :=
  (processed_docs.filterMap (fun doc => doc.agent_response)).filter
    (fun r => decide ((0.3 : ℚ) < r.confidence))

/-! ## Validator (`services/validator.py`) -/

/-- The `patient_name` read used by the name checks:
`'patient_name' in data and data['patient_name']` followed by use of the
value as a string.  Agent cleaning (`BaseAgent._clean_text_field`)
guarantees the field is a string or `None` in every pipeline-produced
document, so only a truthy string yields a name here. -/
def getName (data : List (String × PyValue)) : Option String :=
  match lookupAssoc data "patient_name" with
  | some (.str s) => if s = "" then Option.none else some s
  | _ => Option.none

/-- CPython dict write `m[k] = v`: update the value in place when the key
exists (keeping its position), otherwise append the pair at the end. -/
def pyInsert {α β : Type} [DecidableEq α] :
    List (α × β) → α → β → List (α × β)
  | [], k, v => [(k, v)]
  | (k0, v0) :: rest, k, v =>
    if k0 = k then (k0, v) :: rest else (k0, v0) :: pyInsert rest k v

/-- First-match lookup keyed by `DocumentType`. -/
def lookupDT {β : Type} (m : List (DocumentType × β)) (k : DocumentType) :
    Option β :=
  match m with
  | [] => Option.none
  | (k0, v0) :: rest => if k0 = k then some v0 else lookupDT rest k

/-- `required_document_types` of `ClaimValidator.__init__`: only the
medical bill is required. -/
def required_document_types : List DocumentType := [.bill]

/-- `ClaimValidator._check_missing_documents` (lines 86-100): a document
counts toward a present type only if it also has an `agent_response`. -/
def check_missing_documents (processed_docs : List ProcessedDoc) : List String :=
  let present_types := processed_docs.filterMap (fun doc =>
    if doc.agent_response.isSome then some doc.document_type else Option.none)
  required_document_types.foldl (fun missing required_type =>
    if required_type ∈ present_types then missing
    else missing ++ [required_type.value]) []

/-- The dict build of `_check_data_consistency` lines 107-111: extracted
data collected into a dict keyed by document type, so a later document of
the same type overwrites an earlier one. -/
def buildExtracted (processed_docs : List ProcessedDoc) :
    List (DocumentType × List (String × PyValue)) :=
  processed_docs.foldl (fun m doc =>
    match doc.agent_response with
    | some r =>
      if r.extracted_data ≠ [] then pyInsert m doc.document_type r.extracted_data
      else m
    | Option.none => m) []

/-- The survivor of `buildExtracted`'s dict for one document type: the
last document of that type contributing non-empty extracted data. -/
def lastExtracted (processed_docs : List ProcessedDoc) (t : DocumentType) :
    Option (List (String × PyValue)) :=
  processed_docs.foldl (fun acc doc =>
    match doc.agent_response with
    | some r =>
      if r.extracted_data ≠ [] ∧ doc.document_type = t then some r.extracted_data
      else acc
    | Option.none => acc) Option.none

/-- Lines 114-117: the `(doc_type.value, patient_name)` pairs collected
from the per-type dict, in dict order. -/
def collectPatientNames (m : List (DocumentType × List (String × PyValue))) :
    List (String × String) :=
  m.foldl (fun acc e =>
    match getName e.2 with
    | some n => acc ++ [(e.1.value, n)]
    | Option.none => acc) []

/-- The pairwise comparison loop of lines 119-125: every later name is
compared (lowercased and stripped) against the first collected name. -/
def nameMismatches : List (String × String) → List String
  | [] => []
  | first :: rest =>
    let first_name := pyStrip (pyLower first.2)
    rest.foldl (fun disc e =>
      if pyStrip (pyLower e.2) ≠ first_name then
        disc ++ ["Patient name mismatch: " ++ first.2 ++ " vs " ++ e.2]
      else disc) []

/-- `ClaimValidator._check_data_consistency` (lines 102-127). -/
def check_data_consistency (processed_docs : List ProcessedDoc) : List String :=
  let patient_names := collectPatientNames (buildExtracted processed_docs)
  if 1 < patient_names.length then nameMismatches patient_names else []

/-- Fixed-point rendering of a confidence with two decimals, used in the
low-confidence warning text (the source's f-string with format spec
.2f).  Python formats the nearest binary double with round-half-even;
this floor-based rendering agrees on the values reachable here except at
exact ties, and no claim depends on the warning text. -/
def formatConf2 (q : ℚ) : String :=
  let cents : ℤ := ⌊q * 100⌋
  let whole := cents / 100
  let frac := (cents % 100).toNat
  toString whole ++ "." ++ (if frac < 10 then "0" else "") ++ toString frac

/-- Decimal-ish rendering of an amount in warning text (Python f-string
interpolation of a float); the exact text is irrelevant to every claim. -/
def showAmount (q : ℚ) : String := toString q.num ++ "/" ++ toString q.den

/-- `ClaimValidator._check_data_quality` (lines 129-152). -/
def check_data_quality (processed_docs : List ProcessedDoc) : List String :=
  processed_docs.foldl (fun warnings doc =>
    match doc.agent_response with
    | Option.none => warnings ++ ["Failed to process document: " ++ doc.filename]
    | some agent_response =>
      let warnings :=
        if agent_response.confidence < 0.5 then
          warnings ++ ["Low confidence (" ++ formatConf2 agent_response.confidence ++
            ") for " ++ doc.filename]
        else warnings
      if agent_response.errors ≠ [] then
        warnings ++ ["Processing errors in " ++ doc.filename ++ ": " ++
          String.intercalate ", " agent_response.errors]
      else warnings) []

/-- `ClaimValidator._check_date_consistency` (lines 154-190): the date
lists are collected, but the nested loops over them only execute `pass`,
so the check returns the empty discrepancy list it initialised. -/
def check_date_consistency (processed_docs : List ProcessedDoc) : List String :=
  let discrepancies : List String := []
  let service_dates := processed_docs.filterMap (fun doc =>
    match doc.agent_response with
    | some r =>
      if r.extracted_data ≠ [] ∧ doc.document_type = .bill then
        match lookupAssoc r.extracted_data "date_of_service" with
        | some v => if pyTruthy v then some v else Option.none
        | Option.none => Option.none
      else Option.none
    | Option.none => Option.none)
  let admission_dates := processed_docs.filterMap (fun doc =>
    match doc.agent_response with
    | some r =>
      if r.extracted_data ≠ [] ∧ doc.document_type = .discharge_summary then
        match lookupAssoc r.extracted_data "admission_date" with
        | some v => if pyTruthy v then some v else Option.none
        | Option.none => Option.none
      else Option.none
    | Option.none => Option.none)
  let discharge_dates := processed_docs.filterMap (fun doc =>
    match doc.agent_response with
    | some r =>
      if r.extracted_data ≠ [] ∧ doc.document_type = .discharge_summary then
        match lookupAssoc r.extracted_data "discharge_date" with
        | some v => if pyTruthy v then some v else Option.none
        | Option.none => Option.none
      else Option.none
    | Option.none => Option.none)
  -- Lines 181-188: the triple loop over the three lists performs no
  -- action (`pass`), an explicitly unimplemented validation.
  let _ := service_dates
  let _ := admission_dates
  let _ := discharge_dates
  discrepancies

/-- One entry of `_check_patient_name_consistency`'s `patient_names`
list: `{'name': …, 'document': …, 'type': …}`. -/
structure PNameEntry where
  name : String
  document : String
  type : String
  deriving DecidableEq, Repr

/-- `ClaimValidator._normalize_name` (lines 248-265). -/
def normalize_name (name : String) : String :=
  if name = "" then ""
  else
    let n := pyLower (pyStrip name)
    let n := ["mr.", "mrs.", "ms.", "dr.", "prof."].foldl (fun n p =>
      if pyStartsWith n p then pyStrip (pyDrop n p.length) else n) n
    String.intercalate " " (pySplitWs n)

/-- Grouping write `normalized_names[normalized].append(name_data)`
(lines 211-216): append to the group when the key exists, else add a new
key at the end. -/
def groupInsert (m : List (String × List PNameEntry)) (k : String)
    (v : PNameEntry) : List (String × List PNameEntry) :=
  match m with
  | [] => [(k, [v])]
  | (k0, vs) :: rest =>
    if k0 = k then (k0, vs ++ [v]) :: rest else (k0, vs) :: groupInsert rest k v

/-- `ClaimValidator._check_patient_name_consistency` (lines 192-224). -/
def check_patient_name_consistency (processed_docs : List ProcessedDoc) :
    List String :=
  let patient_names := processed_docs.foldl (fun acc doc =>
    match doc.agent_response with
    | some r =>
      if r.extracted_data ≠ [] then
        match getName r.extracted_data with
        | some n =>
          acc ++ [{ name := n, document := doc.filename
                    type := doc.document_type.value : PNameEntry }]
        | Option.none => acc
      else acc
    | Option.none => acc) []
  if 1 < patient_names.length then
    let normalized_names := patient_names.foldl (fun m name_data =>
      groupInsert m (normalize_name name_data.name) name_data) []
    if 1 < normalized_names.length then
      ["Patient name inconsistency found: " ++
        String.intercalate ", " (normalized_names.map (fun e => e.1))]
    else []
  else []

/-- `ClaimValidator._check_amount_validation` (lines 226-246). -/
def check_amount_validation (processed_docs : List ProcessedDoc) : List String :=
  processed_docs.foldl (fun warnings doc =>
    match doc.agent_response with
    | Option.none => warnings
    | some r =>
      if r.extracted_data ≠ [] then
        if doc.document_type = .bill then
          match lookupAssoc r.extracted_data "total_amount" with
          | Option.none | some .none =>
            warnings ++ ["Missing total amount in bill: " ++ doc.filename]
          | some (.num total_amount) =>
            if total_amount ≤ 0 then
              warnings ++ ["Invalid total amount (" ++ showAmount total_amount ++
                ") in bill: " ++ doc.filename]
            else if 100000 < total_amount then
              warnings ++ ["Unusually high amount (" ++ showAmount total_amount ++
                ") in bill: " ++ doc.filename]
            else warnings
          -- Agent cleaning (`_parse_amount`) guarantees float-or-None;
          -- other shapes cannot reach this comparison.
          | some _ => warnings
        else warnings
      else warnings) []

/-- `ClaimValidator.validate_claim` (lines 24-84), body of the `try`
block; in this typed embedding none of the checks can raise.  The checks
run in source order, each extending the list named in the source. -/
def validate_claim (processed_docs : List ProcessedDoc) : ValidationResult :=
  let missing_documents := check_missing_documents processed_docs
  let discrepancies :=
    check_data_consistency processed_docs ++
    check_date_consistency processed_docs ++
    check_patient_name_consistency processed_docs
  let warnings :=
    check_data_quality processed_docs ++ check_amount_validation processed_docs
  let is_valid := discrepancies.isEmpty && missing_documents.isEmpty
  { missing_documents := missing_documents
    discrepancies := discrepancies
    warnings := warnings
    is_valid := is_valid }

/-! ## Claim theorems -/

/-- C1: for every list of processed documents in which no document has
document_type `bill`, the decision is `rejected` with the fixed reason
"Missing required medical bill document" and confidence 0.9, regardless
of the validation result. -/
theorem C1_rule1_dominates (processed_docs : List ProcessedDoc)
    (validation_result : ValidationResult)
    (h : ∀ doc ∈ processed_docs, doc.document_type ≠ DocumentType.bill) :
    make_claim_decision processed_docs validation_result =
      { status := .rejected
        reason := "Missing required medical bill document"
        confidence := 0.9 } := by
  have hb : DocumentType.bill ∉ processed_docs.map (fun doc => doc.document_type) := by
    simp only [List.mem_map, not_exists]
    rintro d ⟨hd, hdt⟩
    exact h d hd hdt
  simp [make_claim_decision, hb]

/-- Witness for C1: a single non-bill document, with a validation result
that even carries an insurance discrepancy, still yields rule 1's
rejection. -/
theorem C1_rule1_dominates_witness :
    make_claim_decision
      [{ filename := "id.pdf", document_type := .id_card
         classification_confidence := 0.6, agent_response := Option.none }]
      { missing_documents := [], discrepancies := ["Insurance data mismatch"]
        warnings := [], is_valid := false } =
      { status := .rejected
        reason := "Missing required medical bill document"
        confidence := 0.9 } :=
  C1_rule1_dominates _ _ (by decide)

/-- C2: with a bill present and a non-empty discrepancy list, the
decision is `rejected` with confidence 0.3 and a reason joining all
discrepancies when some discrepancy contains the case-insensitive
substring "insurance", and otherwise `approved` with confidence 0.7 and
an "Approved with warnings: …" reason. -/
theorem C2_discrepancy_branches (processed_docs : List ProcessedDoc)
    (validation_result : ValidationResult)
    (hbill : ∃ doc ∈ processed_docs, doc.document_type = DocumentType.bill)
    (hdisc : validation_result.discrepancies ≠ []) :
    ((∃ disc ∈ validation_result.discrepancies,
        strContainsSub (pyLower disc) "insurance" = true) →
      make_claim_decision processed_docs validation_result =
        { status := .rejected
          reason := "Insurance claim validation failed: " ++
            String.intercalate ", " validation_result.discrepancies
          confidence := 0.3 }) ∧
    ((∀ disc ∈ validation_result.discrepancies,
        strContainsSub (pyLower disc) "insurance" = false) →
      make_claim_decision processed_docs validation_result =
        { status := .approved
          reason := "Approved with warnings: " ++
            String.intercalate ", " validation_result.discrepancies
          confidence := 0.7 }) := by
  have hb : DocumentType.bill ∈ processed_docs.map (fun doc => doc.document_type) := by
    obtain ⟨d, hd, hdt⟩ := hbill
    exact List.mem_map.mpr ⟨d, hd, hdt⟩
  constructor
  · intro hins
    have hrel : insuranceRelated validation_result.discrepancies = true := by
      simpa [insuranceRelated, List.any_eq_true] using hins
    simp [make_claim_decision, hb, hdisc, hrel]
  · intro hins
    have hrel : insuranceRelated validation_result.discrepancies = false := by
      simpa [insuranceRelated, List.any_eq_false] using hins
    simp [make_claim_decision, hb, hdisc, hrel]

/-- Witness for C2: one bill document; an insurance-mentioning
discrepancy list takes the rejection branch and an insurance-free one the
approval branch. -/
theorem C2_discrepancy_branches_witness :
    make_claim_decision
      [{ filename := "bill.pdf", document_type := .bill
         classification_confidence := 0.6, agent_response := Option.none }]
      { missing_documents := [], discrepancies := ["Insurance policy number differs"]
        warnings := [], is_valid := false } =
      { status := .rejected
        reason := "Insurance claim validation failed: Insurance policy number differs"
        confidence := 0.3 } ∧
    make_claim_decision
      [{ filename := "bill.pdf", document_type := .bill
         classification_confidence := 0.6, agent_response := Option.none }]
      { missing_documents := [], discrepancies := ["Patient name mismatch: A vs B"]
        warnings := [], is_valid := false } =
      { status := .approved
        reason := "Approved with warnings: Patient name mismatch: A vs B"
        confidence := 0.7 } :=
  ⟨(C2_discrepancy_branches _ _ (by decide) (by decide)).1 (by decide),
   (C2_discrepancy_branches _ _ (by decide) (by decide)).2 (by decide)⟩

/-- C7: the date-consistency check contributes zero discrepancies on
every input: it returns the empty list, and the validation result's
discrepancies consist solely of the two name checks' findings. -/
theorem C7_date_check_noop (processed_docs : List ProcessedDoc) :
    check_date_consistency processed_docs = [] ∧
    (validate_claim processed_docs).discrepancies =
      check_data_consistency processed_docs ++
        check_patient_name_consistency processed_docs := by
  have h : check_date_consistency processed_docs = [] := rfl
  exact ⟨h, by simp [validate_claim, h]⟩

/-- C8: the decision boundary is total: an exception `e` raised inside
decision synthesis is converted into a `rejected` decision with
confidence 0.0 and a reason describing the failure, and a normal result
passes through unchanged — nothing propagates to the caller. -/
theorem C8_decision_boundary_total (inner : Except String ClaimDecision)
    (e : String) (h : inner = .error e) :
    make_claim_decision_boundary inner =
      { status := .rejected
        reason := "Decision processing error: " ++ e
        confidence := 0 } ∧
    (∀ d : ClaimDecision, make_claim_decision_boundary (.ok d) = d) := by
  subst h
  exact ⟨rfl, fun d => rfl⟩

/-- Witness for C8: a concrete raised exception yields the rejected
fallback decision. -/
theorem C8_decision_boundary_total_witness :
    make_claim_decision_boundary (.error "boom") =
      { status := .rejected
        reason := "Decision processing error: boom"
        confidence := 0 } :=
  (C8_decision_boundary_total (.error "boom") "boom" rfl).1

/-- C3: for every field mapping the extraction confidence equals exactly
`min(nonnull/total + (0.1 if some non-empty list field else 0), 1)`, a
fully-empty field mapping yields 0.0, and every extraction confidence
lies in [0, 1]. -/
theorem C3_confidence_formula (data : List (String × PyValue)) :
    (data ≠ [] →
      calculate_confidence data =
        min ((nonNullCount data : ℚ) / (data.length : ℚ) +
          (if anyNonemptyList data then (0.1 : ℚ) else 0)) 1) ∧
    ((∀ kv ∈ data, kv.2 = PyValue.none ∨ kv.2 = PyValue.str "") →
      calculate_confidence data = 0) ∧
    0 ≤ calculate_confidence data ∧ calculate_confidence data ≤ 1 := by
  have hform : ∀ _h : data ≠ [],
      calculate_confidence data =
        min ((nonNullCount data : ℚ) / (data.length : ℚ) +
          (if anyNonemptyList data then (0.1 : ℚ) else 0)) 1 := by
    intro h
    have hlen : ¬ (data.length = 0) := fun hl => h (List.length_eq_zero.mp hl)
    rw [calculate_confidence, if_neg h]
    simp only [if_neg hlen]
    by_cases hb : anyNonemptyList data = true
    · simp [hb]
    · simp only [Bool.not_eq_true] at hb
      simp [hb]
  refine ⟨hform, ?_, ?_, ?_⟩
  · intro hempty
    by_cases h : data = []
    · subst h; rfl
    · have hn : nonNullCount data = 0 := by
        simp only [nonNullCount, List.length_eq_zero, List.filter_eq_nil_iff]
        intro kv hkv
        rcases hempty kv hkv with hv | hv <;> simp [hv]
      have hl : anyNonemptyList data = false := by
        simp only [anyNonemptyList, List.any_eq_false]
        intro kv hkv
        rcases hempty kv hkv with hv | hv <;> simp [hv]
      rw [hform h, hn, hl]
      norm_num
  · by_cases h : data = []
    · subst h
      norm_num [calculate_confidence]
    · rw [hform h]
      have h1 : (0 : ℚ) ≤ (nonNullCount data : ℚ) / (data.length : ℚ) :=
        div_nonneg (Nat.cast_nonneg _) (Nat.cast_nonneg _)
      have h2 : (0 : ℚ) ≤ (if anyNonemptyList data then (0.1 : ℚ) else 0) := by
        split <;> norm_num
      exact le_min (by linarith) (by norm_num)
  · by_cases h : data = []
    · subst h
      norm_num [calculate_confidence]
    · rw [hform h]
      exact min_le_right _ _

/-- Witness for C3: a half-filled mapping satisfies the exact formula and
an all-empty mapping yields 0. -/
theorem C3_confidence_formula_witness :
    calculate_confidence [("a", PyValue.str "x"), ("b", PyValue.none)] =
      min ((nonNullCount [("a", PyValue.str "x"), ("b", PyValue.none)] : ℚ) /
        (([("a", PyValue.str "x"), ("b", PyValue.none)] :
          List (String × PyValue)).length : ℚ) +
        (if anyNonemptyList [("a", PyValue.str "x"), ("b", PyValue.none)]
          then (0.1 : ℚ) else 0)) 1 ∧
    calculate_confidence [("c", PyValue.none), ("d", PyValue.str "")] = 0 :=
  ⟨(C3_confidence_formula _).1 (by decide),
   (C3_confidence_formula [("c", PyValue.none), ("d", PyValue.str "")]).2.1 (by decide)⟩

/-- The running-total loop of `_make_claim_decision` computes exactly the
sum and count of the qualifying documents' confidences. -/
theorem decisionStats_eq (docs : List ProcessedDoc) :
    decisionStats docs =
      (((qualifying docs).map (fun r => r.confidence)).sum,
        (qualifying docs).length) := by
  have main : ∀ (l : List ProcessedDoc) (init : ℚ × ℕ),
      l.foldl (fun acc doc =>
        match doc.agent_response with
        | some r =>
          if 0.3 < r.confidence then (acc.1 + r.confidence, acc.2 + 1) else acc
        | Option.none => acc) init =
      (init.1 + ((qualifying l).map (fun r => r.confidence)).sum,
        init.2 + (qualifying l).length) := by
    intro l
    induction l with
    | nil => intro init; simp [qualifying]
    | cons d ds ih =>
      intro init
      rw [List.foldl_cons]
      cases hd : d.agent_response with
      | none => simp only [hd]; rw [ih]; simp [qualifying, List.filterMap_cons, hd]
      | some r =>
        by_cases hc : (0.3 : ℚ) < r.confidence
        · simp only [hd, if_pos hc]
          rw [ih]
          simp [qualifying, List.filterMap_cons, hd, List.filter_cons, hc, add_assoc,
            add_comm]
        · simp only [hd, if_neg hc]
          rw [ih]
          simp [qualifying, List.filterMap_cons, hd, List.filter_cons, hc]
  have h := main docs (0, 0)
  simpa [decisionStats] using h

/-- C4: under rule 4 (bill present, no discrepancies), `avg_confidence`
is the mean of extraction confidences over exactly the documents whose
extraction confidence exceeds 0.3 (others excluded from numerator and
denominator), it is 0 when no document qualifies, and whenever it is
below 0.7 the decision is `requires_review` with that confidence. -/
theorem C4_avg_confidence_review (processed_docs : List ProcessedDoc)
    (validation_result : ValidationResult)
    (hbill : ∃ doc ∈ processed_docs, doc.document_type = DocumentType.bill)
    (hdisc : validation_result.discrepancies = []) :
    avg_confidence processed_docs =
      (if qualifying processed_docs = [] then 0
        else ((qualifying processed_docs).map (fun r => r.confidence)).sum /
          ((qualifying processed_docs).length : ℚ)) ∧
    (avg_confidence processed_docs < 0.7 →
      make_claim_decision processed_docs validation_result =
        { status := .requires_review
          reason := "Low confidence in extracted data. Manual review required."
          confidence := avg_confidence processed_docs }) := by
  have havg : avg_confidence processed_docs =
      (if qualifying processed_docs = [] then 0
        else ((qualifying processed_docs).map (fun r => r.confidence)).sum /
          ((qualifying processed_docs).length : ℚ)) := by
    rw [avg_confidence, decisionStats_eq]
    by_cases hq : qualifying processed_docs = []
    · simp [hq]
    · have hpos : 0 < (qualifying processed_docs).length :=
        List.length_pos.mpr hq
      simp [hq, hpos]
  refine ⟨havg, fun hlow => ?_⟩
  have hb : DocumentType.bill ∈ processed_docs.map (fun doc => doc.document_type) := by
    obtain ⟨d, hd, hdt⟩ := hbill
    exact List.mem_map.mpr ⟨d, hd, hdt⟩
  simp [make_claim_decision, hb, hdisc, hlow]

/-- Witness for C4: one bill document whose extraction confidence is 0.5
qualifies (0.5 > 0.3), the average is 0.5, and the decision is
`requires_review` with confidence 0.5. -/
theorem C4_avg_confidence_review_witness :
    avg_confidence
      [{ filename := "bill.pdf", document_type := .bill
         classification_confidence := 0.6
         agent_response := some
           { agent_name := "BillAgent", document_type := .bill
             extracted_data := [("patient_name", PyValue.str "Alice")]
             confidence := 0.5, processing_time := 0.2, errors := [] } }] =
      (if qualifying
          [{ filename := "bill.pdf", document_type := .bill
             classification_confidence := 0.6
             agent_response := some
               { agent_name := "BillAgent", document_type := .bill
                 extracted_data := [("patient_name", PyValue.str "Alice")]
                 confidence := 0.5, processing_time := 0.2, errors := [] } }] = []
        then 0
        else ((qualifying
          [{ filename := "bill.pdf", document_type := .bill
             classification_confidence := 0.6
             agent_response := some
               { agent_name := "BillAgent", document_type := .bill
                 extracted_data := [("patient_name", PyValue.str "Alice")]
                 confidence := 0.5, processing_time := 0.2, errors := [] } }]).map
            (fun r => r.confidence)).sum /
          ((qualifying
          [{ filename := "bill.pdf", document_type := .bill
             classification_confidence := 0.6
             agent_response := some
               { agent_name := "BillAgent", document_type := .bill
                 extracted_data := [("patient_name", PyValue.str "Alice")]
                 confidence := 0.5, processing_time := 0.2, errors := [] } }]).length : ℚ)) ∧
    make_claim_decision
      [{ filename := "bill.pdf", document_type := .bill
         classification_confidence := 0.6
         agent_response := some
           { agent_name := "BillAgent", document_type := .bill
             extracted_data := [("patient_name", PyValue.str "Alice")]
             confidence := 0.5, processing_time := 0.2, errors := [] } }]
      { missing_documents := [], discrepancies := [], warnings := [], is_valid := true } =
      { status := .requires_review
        reason := "Low confidence in extracted data. Manual review required."
        confidence := avg_confidence
          [{ filename := "bill.pdf", document_type := .bill
             classification_confidence := 0.6
             agent_response := some
               { agent_name := "BillAgent", document_type := .bill
                 extracted_data := [("patient_name", PyValue.str "Alice")]
                 confidence := 0.5, processing_time := 0.2, errors := [] } }] } := by
  have hlow : avg_confidence
      [{ filename := "bill.pdf", document_type := .bill
         classification_confidence := 0.6
         agent_response := some
           { agent_name := "BillAgent", document_type := .bill
             extracted_data := [("patient_name", PyValue.str "Alice")]
             confidence := 0.5, processing_time := 0.2, errors := [] } }] < 0.7 := by
    norm_num [avg_confidence, decisionStats]
  exact ⟨(C4_avg_confidence_review _
      { missing_documents := [], discrepancies := [], warnings := [], is_valid := true }
      ⟨_, List.mem_singleton.mpr rfl, rfl⟩ rfl).1,
    (C4_avg_confidence_review _ _ ⟨_, List.mem_singleton.mpr rfl, rfl⟩ rfl).2 hlow⟩

/-- C5 counterexample: the oracle response parses with the
out-of-vocabulary label "receipt" for filename "bill.pdf"; the classifier
returns (unknown, 0.3), while the filename-keyword heuristic returns
(bill, 0.6), so the two differ — the fallback heuristic is NOT used for
an out-of-vocabulary parsed label. -/
theorem C5_counterexample :
    classify_document (.parsed (some "receipt") (some 0.8)) "bill.pdf" =
      (DocumentType.unknown, 0.3) ∧
    classify_by_filename "bill.pdf" = (DocumentType.bill, 0.6) ∧
    classify_document (.parsed (some "receipt") (some 0.8)) "bill.pdf" ≠
      classify_by_filename "bill.pdf" := by
  refine ⟨rfl, rfl, fun h => ?_⟩
  rw [show classify_document (.parsed (some "receipt") (some 0.8)) "bill.pdf" =
        (DocumentType.unknown, (0.3 : ℚ)) from rfl,
      show classify_by_filename "bill.pdf" = (DocumentType.bill, (0.6 : ℚ)) from rfl] at h
  exact absurd (congrArg Prod.fst h) (by simp)

/-- C5 amended: for every classify call whose oracle response parses but
carries a label outside the six recognized DocumentType values, the
result is the fixed pair (unknown, 0.3) regardless of the filename; the
filename-keyword heuristic is reached only on oracle failure or an
unparseable (or empty) response. -/
theorem C5_amended_out_of_vocab (label : String) (conf : Option ℚ)
    (filename : String) (h : documentTypeFromString label = Option.none) :
    classify_document (.parsed (some label) conf) filename =
      (DocumentType.unknown, 0.3) ∧
    classify_document .failure filename = classify_by_filename filename ∧
    classify_document .unparsed filename = classify_by_filename filename := by
  refine ⟨?_, rfl, rfl⟩
  unfold classify_document
  simp [h]

/-- Witness for C5 amended: the label "receipt" is out-of-vocabulary and
yields (unknown, 0.3) even though the filename contains "bill". -/
theorem C5_amended_out_of_vocab_witness :
    classify_document (.parsed (some "receipt") (some 0.8)) "invoice.pdf" =
      (DocumentType.unknown, 0.3) :=
  (C5_amended_out_of_vocab "receipt" (some 0.8) "invoice.pdf" rfl).1

/-- The filename heuristic's confidence is 0.6 or 0.3, hence in [0,1],
and it reports 0.3 exactly when it classifies as unknown. -/
theorem classify_by_filename_bounds (filename : String) :
    (0 ≤ (classify_by_filename filename).2 ∧
      (classify_by_filename filename).2 ≤ 1) ∧
    ((classify_by_filename filename).1 = DocumentType.unknown →
      (classify_by_filename filename).2 ≤ 0.3) := by
  unfold classify_by_filename
  dsimp only
  split_ifs <;> norm_num

/-- C6 counterexample: a successfully parsed oracle response labelled
"unknown" with self-reported confidence 0.9 is classified unknown with
confidence 0.9, violating "unknown implies confidence at most 0.3". -/
theorem C6_counterexample :
    (classify_document (.parsed (some "unknown") (some 0.9)) "doc.pdf").1 =
      DocumentType.unknown ∧
    ¬ ((classify_document (.parsed (some "unknown") (some 0.9)) "doc.pdf").2 ≤ 0.3) := by
  constructor
  · rfl
  · rw [show (classify_document (.parsed (some "unknown") (some 0.9)) "doc.pdf").2 =
        (0.9 : ℚ) from rfl]
    norm_num

/-- C6 amended: provided every oracle-reported confidence is itself in
[0,1], the classification confidence is in [0,1]; and whenever the
assigned type is unknown and the oracle did not itself report an
in-vocabulary "unknown" label (so the value came from a fallback path or
the out-of-vocabulary branch), the confidence is at most 0.3.  A parsed
"unknown" label keeps its self-reported confidence, which may exceed
0.3. -/
theorem C6_amended_confidence_bounds (o : ClassifierOracle) (filename : String)
    (hconf : ∀ q, oracleReportedConf o = some q → 0 ≤ q ∧ q ≤ 1) :
    (0 ≤ (classify_document o filename).2 ∧
      (classify_document o filename).2 ≤ 1) ∧
    ((classify_document o filename).1 = DocumentType.unknown →
      parsedLabelIsUnknown o = false →
      (classify_document o filename).2 ≤ 0.3) := by
  cases o with
  | failure =>
    exact ⟨(classify_by_filename_bounds filename).1,
      fun ht _ => (classify_by_filename_bounds filename).2 ht⟩
  | unparsed =>
    exact ⟨(classify_by_filename_bounds filename).1,
      fun ht _ => (classify_by_filename_bounds filename).2 ht⟩
  | parsed dt conf =>
    unfold classify_document
    dsimp only
    cases hdt : documentTypeFromString (dt.getD "unknown") with
    | none =>
      exact ⟨by norm_num, fun _ _ => by norm_num⟩
    | some t =>
      dsimp only
      constructor
      · cases hc : conf with
        | none => simp; norm_num
        | some q =>
          have hq := hconf q (by simp [oracleReportedConf, hc])
          simpa [hc] using hq
      · intro ht hlabel
        exfalso
        have htrue : parsedLabelIsUnknown (.parsed dt conf) = true := by
          simp only [parsedLabelIsUnknown, hdt]
          simp [ht]
        rw [htrue] at hlabel
        cases hlabel

/-- Witness for C6 amended: with a failing oracle and this filename the
classifier lands in the unknown fallback, whose confidence 0.3 meets both
bounds. -/
theorem C6_amended_confidence_bounds_witness :
    ((0 ≤ (classify_document .failure "scan.pdf").2 ∧
      (classify_document .failure "scan.pdf").2 ≤ 1) ∧
    ((classify_document .failure "scan.pdf").1 = DocumentType.unknown →
      parsedLabelIsUnknown .failure = false →
      (classify_document .failure "scan.pdf").2 ≤ 0.3)) :=
  C6_amended_confidence_bounds .failure "scan.pdf" (by simp [oracleReportedConf])

/-- Lookup after a CPython-style dict write: the written key now maps to
the new value, every other key is unchanged. -/
theorem lookupDT_pyInsert {β : Type} (m : List (DocumentType × β))
    (k k' : DocumentType) (v : β) :
    lookupDT (pyInsert m k v) k' = if k' = k then some v else lookupDT m k' := by
  induction m with
  | nil =>
    simp only [pyInsert, lookupDT]
    by_cases h : k = k'
    · subst h; simp
    · have h' : ¬ k' = k := fun hh => h hh.symm
      simp [h, h']
  | cons e rest ih =>
    obtain ⟨k0, v0⟩ := e
    simp only [pyInsert]
    by_cases hk : k0 = k
    · rw [if_pos hk]
      subst hk
      simp only [lookupDT]
      by_cases h' : k0 = k'
      · subst h'; simp
      · have h'' : ¬ k' = k0 := fun hh => h' hh.symm
        simp [h', h'']
    · rw [if_neg hk]
      simp only [lookupDT]
      by_cases h' : k0 = k'
      · subst h'
        simp [lookupDT, hk]
      · simp [h', ih]

/-- The key list after a dict write: unchanged when the key was present,
otherwise extended by the key at the end. -/
theorem pyInsert_keys {β : Type} (m : List (DocumentType × β))
    (k : DocumentType) (v : β) :
    (pyInsert m k v).map Prod.fst =
      if k ∈ m.map Prod.fst then m.map Prod.fst else m.map Prod.fst ++ [k] := by
  induction m with
  | nil => simp [pyInsert]
  | cons e rest ih =>
    obtain ⟨k0, v0⟩ := e
    by_cases hk : k0 = k
    · subst hk; simp [pyInsert]
    · have hk' : ¬ k = k0 := fun hh => hk hh.symm
      simp only [pyInsert, if_neg hk, List.map_cons, ih]
      by_cases hm : k ∈ rest.map Prod.fst
      · simp [hm, hk']
      · simp [hm, hk']

/-- A dict write preserves distinctness of the key list. -/
theorem pyInsert_nodup_keys {β : Type} {m : List (DocumentType × β)}
    (k : DocumentType) (v : β) (h : (m.map Prod.fst).Nodup) :
    ((pyInsert m k v).map Prod.fst).Nodup := by
  rw [pyInsert_keys]
  split_ifs with hm
  · exact h
  · simp [List.nodup_append, h, hm]

/-- The dict built by `buildExtracted` has pairwise-distinct keys. -/
theorem buildExtracted_nodup_keys (processed_docs : List ProcessedDoc) :
    ((buildExtracted processed_docs).map Prod.fst).Nodup := by
  have main : ∀ (l : List ProcessedDoc)
      (m : List (DocumentType × List (String × PyValue))),
      (m.map Prod.fst).Nodup →
      ((l.foldl (fun m doc =>
        match doc.agent_response with
        | some r =>
          if r.extracted_data ≠ [] then pyInsert m doc.document_type r.extracted_data
          else m
        | Option.none => m) m).map Prod.fst).Nodup := by
    intro l
    induction l with
    | nil => intro m hm; exact hm
    | cons d ds ih =>
      intro m hm
      rw [List.foldl_cons]
      cases hd : d.agent_response with
      | none => simp only [hd]; exact ih m hm
      | some r =>
        simp only [hd]
        split_ifs with hne
        · exact ih _ (pyInsert_nodup_keys _ _ hm)
        · exact ih m hm
  exact main processed_docs [] (by simp)

/-- In an association list with distinct keys, membership determines the
lookup result. -/
theorem lookupDT_of_mem {β : Type} {m : List (DocumentType × β)}
    {k : DocumentType} {v : β} (hn : (m.map Prod.fst).Nodup)
    (hm : (k, v) ∈ m) : lookupDT m k = some v := by
  induction m with
  | nil => cases hm
  | cons e rest ih =>
    obtain ⟨k0, v0⟩ := e
    simp only [List.map_cons, List.nodup_cons] at hn
    rcases List.mem_cons.mp hm with heq | htail
    · rw [Prod.mk.injEq] at heq
      obtain ⟨h1, h2⟩ := heq
      subst h1
      subst h2
      simp [lookupDT]
    · have hk : k0 ≠ k := by
        rintro rfl
        exact hn.1 (List.mem_map.mpr ⟨(k0, v), htail, rfl⟩)
      simp only [lookupDT, if_neg hk]
      exact ih hn.2 htail

/-- The dict build keeps, for each document type, exactly the last
contributing document's extracted data. -/
theorem lookupDT_buildExtracted (processed_docs : List ProcessedDoc)
    (t : DocumentType) :
    lookupDT (buildExtracted processed_docs) t = lastExtracted processed_docs t := by
  have main : ∀ (l : List ProcessedDoc)
      (m : List (DocumentType × List (String × PyValue))),
      lookupDT (l.foldl (fun m doc =>
        match doc.agent_response with
        | some r =>
          if r.extracted_data ≠ [] then pyInsert m doc.document_type r.extracted_data
          else m
        | Option.none => m) m) t =
      l.foldl (fun acc doc =>
        match doc.agent_response with
        | some r =>
          if r.extracted_data ≠ [] ∧ doc.document_type = t then some r.extracted_data
          else acc
        | Option.none => acc) (lookupDT m t) := by
    intro l
    induction l with
    | nil => intro m; rfl
    | cons d ds ih =>
      intro m
      rw [List.foldl_cons, List.foldl_cons]
      cases hd : d.agent_response with
      | none => simp only [hd]; exact ih m
      | some r =>
        simp only [hd]
        by_cases hne : r.extracted_data ≠ []
        · rw [if_pos hne, ih]
          by_cases ht : d.document_type = t
          · rw [if_pos ⟨hne, ht⟩, lookupDT_pyInsert]
            rw [if_pos ht.symm]
          · rw [if_neg (fun hc => ht hc.2), lookupDT_pyInsert]
            rw [if_neg (fun hc : t = d.document_type => ht hc.symm)]
        · rw [if_neg hne, if_neg (fun hc => hne hc.1)]
          exact ih m
  exact main processed_docs []

/-- A survivor reported by `lastExtracted` really is the extracted data
of some document of that type in the list. -/
theorem lastExtracted_mem {processed_docs : List ProcessedDoc}
    {t : DocumentType} {v : List (String × PyValue)}
    (h : lastExtracted processed_docs t = some v) :
    ∃ doc ∈ processed_docs, doc.document_type = t ∧
      ∃ r, doc.agent_response = some r ∧ r.extracted_data = v := by
  have main : ∀ (l : List ProcessedDoc) (acc : Option (List (String × PyValue))),
      l.foldl (fun acc doc =>
        match doc.agent_response with
        | some r =>
          if r.extracted_data ≠ [] ∧ doc.document_type = t then some r.extracted_data
          else acc
        | Option.none => acc) acc = some v →
      (∃ doc ∈ l, doc.document_type = t ∧
        ∃ r, doc.agent_response = some r ∧ r.extracted_data = v) ∨ acc = some v := by
    intro l
    induction l with
    | nil => intro acc h; exact Or.inr h
    | cons d ds ih =>
      intro acc h
      rw [List.foldl_cons] at h
      cases hd : d.agent_response with
      | none =>
        simp only [hd] at h
        rcases ih acc h with h1 | h1
        · obtain ⟨doc, hdoc, rest⟩ := h1
          exact Or.inl ⟨doc, List.mem_cons_of_mem _ hdoc, rest⟩
        · exact Or.inr h1
      | some r =>
        simp only [hd] at h
        by_cases hc : r.extracted_data ≠ [] ∧ d.document_type = t
        · rw [if_pos hc] at h
          rcases ih _ h with h1 | h1
          · obtain ⟨doc, hdoc, rest⟩ := h1
            exact Or.inl ⟨doc, List.mem_cons_of_mem _ hdoc, rest⟩
          · refine Or.inl ⟨d, List.mem_cons_self _ _, hc.2, r, hd, ?_⟩
            injection h1
        · rw [if_neg hc] at h
          rcases ih acc h with h1 | h1
          · obtain ⟨doc, hdoc, rest⟩ := h1
            exact Or.inl ⟨doc, List.mem_cons_of_mem _ hdoc, rest⟩
          · exact Or.inr h1
  rcases main processed_docs Option.none h with h1 | h1
  · exact h1
  · cases h1

/-- Every collected patient-name pair originates from a dict entry whose
data field carries that name. -/
theorem mem_collectPatientNames
    {m : List (DocumentType × List (String × PyValue))} {x : String × String}
    (h : x ∈ collectPatientNames m) :
    ∃ e ∈ m, getName e.2 = some x.2 ∧ x.1 = e.1.value := by
  have main : ∀ (l : List (DocumentType × List (String × PyValue)))
      (acc : List (String × String)),
      x ∈ l.foldl (fun acc e =>
        match getName e.2 with
        | some n => acc ++ [(e.1.value, n)]
        | Option.none => acc) acc →
      x ∈ acc ∨ ∃ e ∈ l, getName e.2 = some x.2 ∧ x.1 = e.1.value := by
    intro l
    induction l with
    | nil => intro acc h; exact Or.inl h
    | cons e es ih =>
      intro acc h
      rw [List.foldl_cons] at h
      cases hn : getName e.2 with
      | none =>
        simp only [hn] at h
        rcases ih acc h with h1 | h1
        · exact Or.inl h1
        · obtain ⟨e', he', rest⟩ := h1
          exact Or.inr ⟨e', List.mem_cons_of_mem _ he', rest⟩
      | some nm =>
        simp only [hn] at h
        rcases ih _ h with h1 | h1
        · rcases List.mem_append.mp h1 with h2 | h2
          · exact Or.inl h2
          · have hx : x = (e.1.value, nm) := List.mem_singleton.mp h2
            subst hx
            exact Or.inr ⟨e, List.mem_cons_self _ _, by simpa using hn, rfl⟩
        · obtain ⟨e', he', rest⟩ := h1
          exact Or.inr ⟨e', List.mem_cons_of_mem _ he', rest⟩
  rcases main m [] h with h1 | h1
  · cases h1
  · exact h1

/-- When every collected name normalises (lowercase, strip) to one and
the same string, the pairwise mismatch loop reports nothing. -/
theorem nameMismatches_all_eq {names : List (String × String)} {n : String}
    (h : ∀ x ∈ names, pyStrip (pyLower x.2) = n) : nameMismatches names = [] := by
  cases names with
  | nil => rfl
  | cons first rest =>
    have hf : pyStrip (pyLower first.2) = n := h first (List.mem_cons_self _ _)
    have main : ∀ (l : List (String × String)) (acc : List String),
        (∀ x ∈ l, pyStrip (pyLower x.2) = n) →
        l.foldl (fun disc e =>
          if pyStrip (pyLower e.2) ≠ pyStrip (pyLower first.2) then
            disc ++ ["Patient name mismatch: " ++ first.2 ++ " vs " ++ e.2]
          else disc) acc = acc := by
      intro l
      induction l with
      | nil => intro acc _; rfl
      | cons a as ih =>
        intro acc hall
        rw [List.foldl_cons]
        have ha : pyStrip (pyLower a.2) = n := hall a (List.mem_cons_self _ _)
        rw [if_neg (by rw [ha, hf]; simp)]
        exact ih acc (fun x hx => hall x (List.mem_cons_of_mem _ hx))
    unfold nameMismatches
    exact main rest [] (fun x hx => h x (List.mem_cons_of_mem _ hx))



/-- C9 counterexample: exactly two documents share document type `bill`
with differing patient names "Alice" and "Bob", and the only other
document (an id card) agrees with "Alice"; yet the pass DOES emit a
"Patient name mismatch" discrepancy, because the dict keyed by document
type keeps only the last bill ("Bob"), which then disagrees with the id
card's "Alice". -/
theorem C9_counterexample :
    (List.filter (fun d : ProcessedDoc => decide (d.document_type = DocumentType.bill))
      [{ filename := "bill1.pdf", document_type := .bill,
          classification_confidence := 0.8,
          agent_response := some
            { agent_name := "A", document_type := .bill,
              extracted_data := [("patient_name", PyValue.str "Alice")],
              confidence := 0.8, processing_time := 0.1, errors := [] } },
       { filename := "bill2.pdf", document_type := .bill,
          classification_confidence := 0.8,
          agent_response := some
            { agent_name := "A", document_type := .bill,
              extracted_data := [("patient_name", PyValue.str "Bob")],
              confidence := 0.8, processing_time := 0.1, errors := [] } },
       { filename := "id.pdf", document_type := .id_card,
          classification_confidence := 0.8,
          agent_response := some
            { agent_name := "A", document_type := .id_card,
              extracted_data := [("patient_name", PyValue.str "Alice")],
              confidence := 0.8, processing_time := 0.1, errors := [] } }] ).length = 2 ∧
    check_data_consistency
      [{ filename := "bill1.pdf", document_type := .bill,
          classification_confidence := 0.8,
          agent_response := some
            { agent_name := "A", document_type := .bill,
              extracted_data := [("patient_name", PyValue.str "Alice")],
              confidence := 0.8, processing_time := 0.1, errors := [] } },
       { filename := "bill2.pdf", document_type := .bill,
          classification_confidence := 0.8,
          agent_response := some
            { agent_name := "A", document_type := .bill,
              extracted_data := [("patient_name", PyValue.str "Bob")],
              confidence := 0.8, processing_time := 0.1, errors := [] } },
       { filename := "id.pdf", document_type := .id_card,
          classification_confidence := 0.8,
          agent_response := some
            { agent_name := "A", document_type := .id_card,
              extracted_data := [("patient_name", PyValue.str "Alice")],
              confidence := 0.8, processing_time := 0.1, errors := [] } }] = ["Patient name mismatch: Bob vs Alice"] :=
  ⟨rfl, rfl⟩

/-- C9 amended: extracted data is collected into a dict keyed by
document type, so for every type only the LAST document of that type with
non-empty extracted data participates in the pairwise name pass; in
particular the pass emits no mismatch whenever all participating names
normalise (lowercase, strip) to one string — i.e. when every contributing
document of other types and the last surviving document of the duplicated
type agree — even though an earlier same-type document carries a
different name. -/
theorem C9_amended_last_one_wins (processed_docs : List ProcessedDoc)
    (t : DocumentType) (n : String)
    (h1 : ∀ doc ∈ processed_docs, doc.document_type ≠ t →
      ∀ r, doc.agent_response = some r →
      ∀ s, getName r.extracted_data = some s → pyStrip (pyLower s) = n)
    (h2 : ∀ v, lastExtracted processed_docs t = some v →
      ∀ s, getName v = some s → pyStrip (pyLower s) = n) :
    (∀ u, lookupDT (buildExtracted processed_docs) u =
      lastExtracted processed_docs u) ∧
    check_data_consistency processed_docs = [] := by
  refine ⟨fun u => lookupDT_buildExtracted processed_docs u, ?_⟩
  have hall : ∀ x ∈ collectPatientNames (buildExtracted processed_docs),
      pyStrip (pyLower x.2) = n := by
    intro x hx
    obtain ⟨e, he, hname, -⟩ := mem_collectPatientNames hx
    have hlk : lookupDT (buildExtracted processed_docs) e.1 = some e.2 :=
      lookupDT_of_mem (buildExtracted_nodup_keys processed_docs) he
    have hlast : lastExtracted processed_docs e.1 = some e.2 :=
      (lookupDT_buildExtracted processed_docs e.1).symm.trans hlk
    by_cases ht : e.1 = t
    · exact h2 e.2 (ht ▸ hlast) x.2 hname
    · obtain ⟨doc, hdoc, hdt, r, hr, hdata⟩ := lastExtracted_mem hlast
      have hdt' : doc.document_type ≠ t := by rw [hdt]; exact ht
      exact h1 doc hdoc hdt' r hr x.2 (hdata ▸ hname)
  unfold check_data_consistency
  dsimp only
  split_ifs with hlen
  · exact nameMismatches_all_eq hall
  · rfl

/-- Witness for C9 amended: two bill documents named "Alice" then "Bob";
the surviving (last) name normalises to "bob", no other document
contributes, and indeed no mismatch is emitted. -/
theorem C9_amended_last_one_wins_witness :
    lookupDT
      (buildExtracted
        [{ filename := "bill1.pdf", document_type := .bill,
            classification_confidence := 0.8,
            agent_response := some
              { agent_name := "A", document_type := .bill,
                extracted_data := [("patient_name", PyValue.str "Alice")],
                confidence := 0.8, processing_time := 0.1, errors := [] } },
         { filename := "bill2.pdf", document_type := .bill,
            classification_confidence := 0.8,
            agent_response := some
              { agent_name := "A", document_type := .bill,
                extracted_data := [("patient_name", PyValue.str "Bob")],
                confidence := 0.8, processing_time := 0.1, errors := [] } }] )
      DocumentType.bill =
    lastExtracted
      [{ filename := "bill1.pdf", document_type := .bill,
          classification_confidence := 0.8,
          agent_response := some
            { agent_name := "A", document_type := .bill,
              extracted_data := [("patient_name", PyValue.str "Alice")],
              confidence := 0.8, processing_time := 0.1, errors := [] } },
       { filename := "bill2.pdf", document_type := .bill,
          classification_confidence := 0.8,
          agent_response := some
            { agent_name := "A", document_type := .bill,
              extracted_data := [("patient_name", PyValue.str "Bob")],
              confidence := 0.8, processing_time := 0.1, errors := [] } }] DocumentType.bill ∧
    check_data_consistency
      [{ filename := "bill1.pdf", document_type := .bill,
          classification_confidence := 0.8,
          agent_response := some
            { agent_name := "A", document_type := .bill,
              extracted_data := [("patient_name", PyValue.str "Alice")],
              confidence := 0.8, processing_time := 0.1, errors := [] } },
       { filename := "bill2.pdf", document_type := .bill,
          classification_confidence := 0.8,
          agent_response := some
            { agent_name := "A", document_type := .bill,
              extracted_data := [("patient_name", PyValue.str "Bob")],
              confidence := 0.8, processing_time := 0.1, errors := [] } }] = [] := by
  have h := C9_amended_last_one_wins
    [{ filename := "bill1.pdf", document_type := .bill,
        classification_confidence := 0.8,
        agent_response := some
          { agent_name := "A", document_type := .bill,
            extracted_data := [("patient_name", PyValue.str "Alice")],
            confidence := 0.8, processing_time := 0.1, errors := [] } },
     { filename := "bill2.pdf", document_type := .bill,
        classification_confidence := 0.8,
        agent_response := some
          { agent_name := "A", document_type := .bill,
            extracted_data := [("patient_name", PyValue.str "Bob")],
            confidence := 0.8, processing_time := 0.1, errors := [] } }] DocumentType.bill "bob"
    (by
      intro doc hdoc hne r hr s hs
      simp only [List.mem_cons, List.mem_singleton] at hdoc
      rcases hdoc with rfl | rfl | hdoc
      · exact absurd rfl hne
      · exact absurd rfl hne
      · cases hdoc)
    (by
      intro v hv s hs
      have hle : lastExtracted
          [{ filename := "bill1.pdf", document_type := .bill,
              classification_confidence := 0.8,
              agent_response := some
                { agent_name := "A", document_type := .bill,
                  extracted_data := [("patient_name", PyValue.str "Alice")],
                  confidence := 0.8, processing_time := 0.1, errors := [] } },
           { filename := "bill2.pdf", document_type := .bill,
              classification_confidence := 0.8,
              agent_response := some
                { agent_name := "A", document_type := .bill,
                  extracted_data := [("patient_name", PyValue.str "Bob")],
                  confidence := 0.8, processing_time := 0.1, errors := [] } }] DocumentType.bill =
        some [("patient_name", PyValue.str "Bob")] := rfl
      rw [hle] at hv
      injection hv with hv
      subst hv
      have hge : getName [("patient_name", PyValue.str "Bob")] = some "Bob" := rfl
      rw [hge] at hs
      injection hs with hs
      subst hs
      rfl)
  exact ⟨h.1 DocumentType.bill, h.2⟩

/-- C10: the validator and the decision engine disagree on what counts
as a present bill.  When every bill-classified document lacks an
extraction result, the validator's missing-document check (which requires
an `agent_response`) reports "bill" missing and invalidates the claim,
while decision rule 1 (which looks only at `document_type`) is not
triggered — the decision is never rule 1's fixed rejection. -/
theorem C10_missing_bill_disagreement (processed_docs : List ProcessedDoc)
    (hbill : ∃ doc ∈ processed_docs, doc.document_type = DocumentType.bill)
    (hnoresp : ∀ doc ∈ processed_docs,
      doc.document_type = DocumentType.bill → doc.agent_response = Option.none) :
    "bill" ∈ (validate_claim processed_docs).missing_documents ∧
    (validate_claim processed_docs).is_valid = false ∧
    make_claim_decision processed_docs (validate_claim processed_docs) ≠
      { status := .rejected
        reason := "Missing required medical bill document"
        confidence := 0.9 } := by
  have hmiss : check_missing_documents processed_docs = ["bill"] := by
    have hnp : DocumentType.bill ∉ processed_docs.filterMap (fun doc =>
        if doc.agent_response.isSome then some doc.document_type else Option.none) := by
      intro hmem
      obtain ⟨doc, hdoc, hif⟩ := List.mem_filterMap.mp hmem
      by_cases hs : doc.agent_response.isSome
      · rw [if_pos hs] at hif
        injection hif with hif
        rw [hnoresp doc hdoc hif] at hs
        simp at hs
      · rw [if_neg hs] at hif
        cases hif
    unfold check_missing_documents
    dsimp only
    rw [show required_document_types = [DocumentType.bill] from rfl,
      List.foldl_cons, if_neg hnp, List.foldl_nil]
    rfl
  have hmval : (validate_claim processed_docs).missing_documents = ["bill"] := by
    unfold validate_claim
    dsimp only
    exact hmiss
  have hvalid : (validate_claim processed_docs).is_valid = false := by
    unfold validate_claim
    dsimp only
    rw [hmiss]
    simp
  refine ⟨by rw [hmval]; exact List.mem_singleton.mpr rfl, hvalid, ?_⟩
  have hb : DocumentType.bill ∈ processed_docs.map (fun doc => doc.document_type) := by
    obtain ⟨d, hd, hdt⟩ := hbill
    exact List.mem_map.mpr ⟨d, hd, hdt⟩
  intro hEq
  unfold make_claim_decision at hEq
  dsimp only at hEq
  rw [if_neg (fun hn => hn hb)] at hEq
  split_ifs at hEq <;> norm_num [ClaimDecision.mk.injEq] at hEq <;>
    exact absurd hEq.1 (by decide)

/-- Witness for C10: a single bill-classified document with no extraction
result. -/
theorem C10_missing_bill_disagreement_witness :
    "bill" ∈ (validate_claim
      [{ filename := "bill.pdf", document_type := .bill,
         classification_confidence := 0.6,
         agent_response := Option.none }]).missing_documents ∧
    (validate_claim
      [{ filename := "bill.pdf", document_type := .bill,
         classification_confidence := 0.6,
         agent_response := Option.none }]).is_valid = false ∧
    make_claim_decision
      [{ filename := "bill.pdf", document_type := .bill,
         classification_confidence := 0.6,
         agent_response := Option.none }]
      (validate_claim
        [{ filename := "bill.pdf", document_type := .bill,
           classification_confidence := 0.6,
           agent_response := Option.none }]) ≠
      { status := .rejected
        reason := "Missing required medical bill document"
        confidence := 0.9 } :=
  C10_missing_bill_disagreement _ ⟨_, List.mem_singleton.mpr rfl, rfl⟩
    (by
      intro doc hdoc _h
      simp only [List.mem_singleton] at hdoc
      subst hdoc
      rfl)
